import Mathlib

/-!
Verification of the `obsidian-s3-backup` repository against its
natural-language specification.

The Python sources are shallowly embedded here:
* `src/backup.py` — eligibility filter, vault validation/scanning, archive
  construction, backup orchestration;
* `src/aws_client.py` — the S3 client operations (`verify_credentials`,
  `ensure_bucket_exists`, `upload_file`, `generate_backup_key`,
  `calculate_upload_progress`).

Filesystem contents, temporary-file allocation and the remote S3 service are
modelled as explicit parameters (a list of existing paths, a pre-allocated
temporary name, failure-injection flags and a world of buckets), and every
operation that performs externally visible calls also returns the list of the
calls it issued, so that "no side effect" / "no remote call" claims become
statements about that trace.
-/

namespace ObsidianS3Backup

/-! ### String helpers, modelling Python `str` / `os.path` primitives.

All helpers recurse structurally over `List Char` so that concrete instances
reduce inside the kernel (`decide` / `rfl`).
-/

/-- `isPrefixB pat s` is Python `s.startswith(pat)` on exploded strings. -/
def isPrefixB : List Char → List Char → Bool
  | [], _ => true
  | _ :: _, [] => false
  | a :: as, b :: bs => a = b && isPrefixB as bs

/-- `isInfixB pat s` is Python `pat in s` (substring test) on exploded strings. -/
def isInfixB (pat : List Char) : List Char → Bool
  | [] => isPrefixB pat []
  | c :: rest => isPrefixB pat (c :: rest) || isInfixB pat rest

/-- `isSuffixB pat s` is Python `s.endswith(pat)` on exploded strings. -/
def isSuffixB (pat s : List Char) : Bool :=
  isPrefixB pat.reverse s.reverse

/-- Python `pat in s` for strings. -/
def strContains (s pat : String) : Bool :=
  isInfixB pat.toList s.toList

/-- Python `s.startswith(pre)`. -/
def strStartsWith (s pre : String) : Bool :=
  isPrefixB pre.toList s.toList

/-- Python `s.endswith(suf)`. -/
def strEndsWith (s suf : String) : Bool :=
  isSuffixB suf.toList s.toList

/-- Split an exploded string at every occurrence of the character `c`
(Python `s.split(c)`); always returns at least one (possibly empty) piece. -/
def splitOnChar (c : Char) : List Char → List (List Char)
  | [] => [[]]
  | x :: xs =>
    let r := splitOnChar c xs
    if x = c then [] :: r
    else
      match r with
      | [] => [[x]]
      | y :: ys => (x :: y) :: ys

/-- POSIX `os.path.basename`: everything after the last `/`. -/
def basename (p : String) : String :=
  String.mk ((splitOnChar '/' p.toList).getLastD [])

/-- POSIX `os.path.join(a, b)` for a single relative or absolute component `b`. -/
def osPathJoin (a b : String) : String :=
  if strStartsWith b "/" then b
  else if a = "" then b
  else if strEndsWith a "/" then a ++ b
  else a ++ "/" ++ b

/-- The non-empty `/`-separated components of a path, as used by
`posixpath.relpath` after `abspath` normalisation. -/
def pathComponents (p : String) : List (List Char) :=
  (splitOnChar '/' p.toList).filter (fun c => !c.isEmpty)

/-- Length of the longest common prefix of two component lists. -/
def commonPrefixLen : List (List Char) → List (List Char) → Nat
  | a :: as, b :: bs => if a = b then commonPrefixLen as bs + 1 else 0
  | _, _ => 0

/-- Join path components back with `/`. -/
def joinComponents : List (List Char) → List Char
  | [] => []
  | [c] => c
  | c :: cs => c ++ '/' :: joinComponents cs

/-- POSIX `os.path.relpath(path, start)` for already-normalised absolute
paths: strip the common component prefix, prepend one `..` per remaining
component of `start`, and join with `/` (empty result gives `.`). -/
def relpath (path start : String) : String :=
  let pl := pathComponents path
  let sl := pathComponents start
  let i := commonPrefixLen sl pl
  let rel := List.replicate (sl.length - i) ('.' :: ['.']) ++ pl.drop i
  if rel.isEmpty then "." else String.mk (joinComponents rel)

/-! ### Eligibility filter — `is_backup_target` (src/backup.py lines 262–295) -/

/-- `excluded_files` (backup.py line 281): fixed OS/editor artifact names. -/
def excludedFiles : List String := [".DS_Store", "Thumbs.db", ".gitignore"]

/-- `temp_extensions` (backup.py line 286): temporary/backup-file suffixes. -/
def tempExtensions : List String := [".tmp", ".temp", ".bak", ".swp"]

/-- `is_backup_target` (backup.py lines 262–295), translated clause by clause:
the `.obsidian` test is a *substring* test on the whole path string
(Python tests `.obsidian in file_path` as substring), then the basename is tested against the artifact
set, the temporary extensions, and a leading dot. -/
def is_backup_target (file_path : String) : Bool :=
  let file_name := basename file_path
  if strContains file_path ".obsidian" then false
  else if excludedFiles.contains file_name then false
  else if tempExtensions.any (fun ext => strEndsWith file_name ext) then false
  else if strStartsWith file_name "." then false
  else true

/-- The four ordered exclusion rules of spec §4.1. -/
inductive ExclusionRule
  | configDir
  | osArtifact
  | tempExtension
  | hiddenFile
deriving DecidableEq

/-- The order in which spec §4.1 lists the exclusion rules. -/
def exclusionOrder : List ExclusionRule :=
  [.configDir, .osArtifact, .tempExtension, .hiddenFile]

/-- Reading of the rules taken by the claim, where rule 1 excludes a path containing
a *directory segment equal to* `.obsidian` (a `/`-separated component of the
path that is exactly `.obsidian`). -/
def ruleExcludesSegment (p : String) : ExclusionRule → Bool
  | .configDir => (splitOnChar '/' p.toList).contains ".obsidian".toList
  | .osArtifact => excludedFiles.contains (basename p)
  | .tempExtension => tempExtensions.any (fun ext => strEndsWith (basename p) ext)
  | .hiddenFile => strStartsWith (basename p) "."

/-- Reference predicate of the claim: include unless one of the four ordered
rules (segment reading) fires. -/
def isBackupTargetSegmentSpec (p : String) : Bool :=
  !(exclusionOrder.any (ruleExcludesSegment p))

/-- The amended reading of the rules: rule 1 excludes a path containing the
*substring* `.obsidian` anywhere in the path string, as the code does. -/
def ruleExcludesSubstring (p : String) : ExclusionRule → Bool
  | .configDir => strContains p ".obsidian"
  | .osArtifact => excludedFiles.contains (basename p)
  | .tempExtension => tempExtensions.any (fun ext => strEndsWith (basename p) ext)
  | .hiddenFile => strStartsWith (basename p) "."

/-- Reference predicate of the amended claim: include unless one of the four
ordered rules (substring reading) fires. -/
def isBackupTargetSubstringSpec (p : String) : Bool :=
  !(exclusionOrder.any (ruleExcludesSubstring p))

/-! ### Archive builder — `create_backup_archive` (src/backup.py lines 106–155)

The on-disk world is a list of existing file paths.  `tempfile` allocation,
`zipfile` container opening, per-entry writes and container finalisation can
all fail in Python; those failure points are injected through `ArchiveEnv`.
backup.py imports only `os`, `logging`, `typing` and `datetime` (lines 6–9);
the names `tempfile` (line 122) and `zipfile` (line 127) are therefore
unresolved in the shipped module, which `ArchiveEnv` records through the two
`...Defined` flags.
-/

/-- Environment of one `create_backup_archive` call: the files existing on
disk, the temporary path `tempfile.NamedTemporaryFile` would allocate, the
module-name-resolution facts and the injected I/O failures. -/
structure ArchiveEnv where
  /-- Paths existing on disk when the call starts. -/
  fs : List String
  /-- The path allocated by `tempfile.NamedTemporaryFile` with a `.zip` suffix. -/
  tempName : String
  /-- Whether the name `tempfile` resolves in the module (line 122). -/
  tempfileDefined : Bool
  /-- Whether the name `zipfile` resolves in the module (line 127). -/
  zipfileDefined : Bool
  /-- Whether opening `zipfile.ZipFile` on the archive path for writing raises. -/
  openFails : Bool
  /-- Whether `zip_file.write(p, rel)` raises for the path `p`
  (caught per file by the inner `except`, lines 141–143). -/
  writeFails : String → Bool
  /-- Whether finalising the container (the `with`-exit `close`) raises. -/
  closeFails : Bool

/-- Outcome of one `create_backup_archive` call: the returned value, the
files on disk afterwards, the paths skipped with a logged warning, and the
entry names stored in the container. -/
structure ArchiveOutcome where
  result : Option String
  fs : List String
  warnings : List String
  entries : List String
deriving DecidableEq

/-- The `for file_path in files` loop (backup.py lines 130–143): a path that
does not exist on disk is skipped with a warning (lines 131–133); a path whose
write raises is skipped with a warning (lines 141–143); otherwise the file is
stored under its path relative to the vault root (lines 137–139).  Returns
(entries stored, paths skipped with a warning), both in processing order. -/
def archiveLoop (fsNow : List String) (writeFails : String → Bool)
    (vault_path : String) (files : List String) : List String × List String :=
  files.foldl
    (fun acc p =>
      if fsNow.contains p = false then (acc.1, acc.2 ++ [p])
      else if writeFails p then (acc.1, acc.2 ++ [p])
      else (acc.1 ++ [relpath p vault_path], acc.2))
    ([], [])

/-- Lines 120–155 of backup.py under the assumption that the names `tempfile`
and `zipfile` resolve: create the temporary container file (`delete=False`, so
it appears on disk), open it as a zip, run the entry loop, delete it and fail
if nothing was stored (lines 145–148), and otherwise return its path.  A raise
while opening or finalising the container is caught by the blanket `except`
(lines 153–155), which only logs and returns `None` — it does not delete the
partially written container. -/
def create_backup_archive_zip (env : ArchiveEnv) (vault_path : String)
    (files : List String) : ArchiveOutcome :=
  let fs1 := env.tempName :: env.fs
  if env.openFails then
    { result := none, fs := fs1, warnings := [], entries := [] }
  else
    let ew := archiveLoop fs1 env.writeFails vault_path files
    if ew.1.isEmpty then
      { result := none, fs := fs1.erase env.tempName, warnings := ew.2,
        entries := [] }
    else if env.closeFails then
      { result := none, fs := fs1, warnings := ew.2, entries := ew.1 }
    else
      { result := some env.tempName, fs := fs1, warnings := ew.2,
        entries := ew.1 }

/-- `create_backup_archive` (backup.py lines 106–155).  An empty file list
fails immediately (lines 116–118).  If the name `tempfile` does not resolve,
line 122 raises `NameError` before any file is created; if `zipfile` does not
resolve, line 127 raises after the temporary file was created; either raise is
converted to `None` by the blanket `except` (lines 153–155). -/
def create_backup_archive (env : ArchiveEnv) (vault_path : String)
    (files : List String) : ArchiveOutcome :=
  if files.isEmpty then
    { result := none, fs := env.fs, warnings := [], entries := [] }
  else if env.tempfileDefined = false then
    { result := none, fs := env.fs, warnings := [], entries := [] }
  else if env.zipfileDefined = false then
    { result := none, fs := env.tempName :: env.fs, warnings := [],
      entries := [] }
  else create_backup_archive_zip env vault_path files

/-- The module-level import list of backup.py (lines 6–9). -/
def backupModuleImports : List String := ["os", "logging", "typing", "datetime"]

/-- An `ArchiveEnv` models the shipped backup.py module exactly when its
name-resolution flags agree with the import list of the module (in the shipped
module neither `tempfile` nor `zipfile` is imported). -/
def ShippedModule (env : ArchiveEnv) : Prop :=
  env.tempfileDefined = backupModuleImports.contains "tempfile" ∧
  env.zipfileDefined = backupModuleImports.contains "zipfile"

/-! ### Vault validation and scanning (src/backup.py lines 44–104)

`os.walk` is modelled as the flat, traversal-ordered list of the
`(root, filename)` pairs it yields.
-/

/-- One regular file yielded by `os.walk`: the directory containing it and
its bare filename. -/
structure WalkEntry where
  root : String
  file : String
deriving DecidableEq

/-- The flags loop of `validate_vault` (backup.py lines 56–65): walk the
entries, set `has_any_files` at the first eligible file, set `has_md_files`
and break out of both loops at the first eligible `.md` file. -/
def validate_walk (hasAny hasMd : Bool) : List WalkEntry → Bool × Bool
  | [] => (hasAny, hasMd)
  | e :: es =>
    if hasMd then (hasAny, hasMd)
    else if is_backup_target (osPathJoin e.root e.file) then
      validate_walk true (strEndsWith e.file ".md") es
    else validate_walk hasAny hasMd es

/-- The distinguishable outcomes of `validate_vault`: valid, empty vault
(warning line 68), or no markdown files (warning line 72). -/
inductive ValidateReason
  | valid
  | empty
  | noMarkdown
deriving DecidableEq

/-- `validate_vault` (backup.py lines 44–80) with its logged reason made
explicit: `False` with the "empty" warning when no eligible file exists,
`False` with the "no markdown" warning when none ends in `.md`, else `True`. -/
def validate_vault_reason (vault : List WalkEntry) : ValidateReason :=
  let flags := validate_walk false false vault
  if flags.1 = false then .empty
  else if flags.2 = false then .noMarkdown
  else .valid

/-- The boolean returned by `validate_vault`. -/
def validate_vault (vault : List WalkEntry) : Bool :=
  match validate_vault_reason vault with
  | .valid => true
  | _ => false

/-- `scan_vault_files` (backup.py lines 82–104): every walked file whose
joined path passes `is_backup_target`, in traversal order. -/
def scan_vault_files (vault : List WalkEntry) : List String :=
  (vault.filter (fun e => is_backup_target (osPathJoin e.root e.file))).map
    (fun e => osPathJoin e.root e.file)

/-! ### Backup orchestrator — `execute_backup` (src/backup.py lines 178–234)

The injected `aws_client` is modelled as an oracle giving the outcome of each
of its three calls (`Except Unit α`: `.error` is a raised exception, caught by
the outer `except` of the orchestrator).  The result carries the trace of the
AWS-client calls and deletions the run performed, in order.
-/

/-- Outcomes of the `aws_client` calls made by `execute_backup` (the tests
inject a mock here, and `generate_backup_key` cannot raise for the orchestrator
because the line-212 timestamp is never empty — but the oracle allows any
outcome). -/
structure AwsOracle where
  ensureBucket : Except Unit Bool
  genKey : Except Unit String
  upload : Except Unit Bool

/-- Externally visible events of one `execute_backup` run. -/
inductive OrchCall
  | ensureBucketCall
  | genKeyCall
  | uploadCall (archive key : String)
  | unlinkCall (p : String)
deriving DecidableEq

/-- Result of one `execute_backup` run: the returned boolean, the ordered
event trace, and the files left on disk. -/
structure OrchResult where
  ok : Bool
  calls : List OrchCall
  fs : List String
deriving DecidableEq

/-- The `finally` block of backup.py lines 226–230: delete the archive file
if it still exists.  Returns the extended trace and the remaining files. -/
def armedCleanup (archive_path : String) (calls : List OrchCall)
    (fs : List String) : List OrchCall × List String :=
  if fs.contains archive_path then
    (calls ++ [.unlinkCall archive_path], fs.erase archive_path)
  else (calls, fs)

/-- `execute_backup` (backup.py lines 178–234): validate, scan, archive, then
inside `try ... finally`: ensure bucket, generate key, generate metadata
(pure: it rescans the modelled walk and sums sizes, and cannot raise), upload;
the `finally` cleanup runs on every exit from that block, and the outer
`except` converts any raised exception into `False`. -/
def execute_backup (vault_path : String) (vault : List WalkEntry)
    (env : ArchiveEnv) (aws : AwsOracle) : OrchResult :=
  if validate_vault vault = false then
    { ok := false, calls := [], fs := env.fs }
  else
    let files := scan_vault_files vault
    if files.isEmpty then
      { ok := false, calls := [], fs := env.fs }
    else
      let out := create_backup_archive env vault_path files
      match out.result with
      | none => { ok := false, calls := [], fs := out.fs }
      | some archive_path =>
        match aws.ensureBucket with
        | .error _ =>
          let cf := armedCleanup archive_path [.ensureBucketCall] out.fs
          { ok := false, calls := cf.1, fs := cf.2 }
        | .ok false =>
          let cf := armedCleanup archive_path [.ensureBucketCall] out.fs
          { ok := false, calls := cf.1, fs := cf.2 }
        | .ok true =>
          match aws.genKey with
          | .error _ =>
            let cf :=
              armedCleanup archive_path [.ensureBucketCall, .genKeyCall] out.fs
            { ok := false, calls := cf.1, fs := cf.2 }
          | .ok s3_key =>
            match aws.upload with
            | .error _ =>
              let cf := armedCleanup archive_path
                [.ensureBucketCall, .genKeyCall, .uploadCall archive_path s3_key]
                out.fs
              { ok := false, calls := cf.1, fs := cf.2 }
            | .ok false =>
              let cf := armedCleanup archive_path
                [.ensureBucketCall, .genKeyCall, .uploadCall archive_path s3_key]
                out.fs
              { ok := false, calls := cf.1, fs := cf.2 }
            | .ok true =>
              let cf := armedCleanup archive_path
                [.ensureBucketCall, .genKeyCall, .uploadCall archive_path s3_key]
                out.fs
              { ok := true, calls := cf.1, fs := cf.2 }

/-- Whether an orchestrator event is a file deletion. -/
def isUnlink : OrchCall → Bool
  | .unlinkCall _ => true
  | _ => false

/-! ### Remote storage client — `S3BackupClient` (src/aws_client.py)

A client instance carries whether `initialize_client` has set `self.s3_client`
(`s3_client = None` ↔ `false`) plus its bucket and region.  Its
`backup_prefix` is the constant `"obsidian-backup"` set in `__init__`
(line 43) and never mutated, so it is modelled as a module constant.  The
remote service is a world of buckets; every operation returns, besides its
boolean, the list of S3 API calls it issued.
-/

/-- `self.backup_prefix` (aws_client.py line 43). -/
def backupPrefixValue : String := "obsidian-backup"

/-- The per-instance state of `S3BackupClient` relevant to its operations. -/
structure ClientState where
  /-- Whether `self.s3_client` is set (`initialize_client` succeeded). -/
  s3_client : Bool
  bucket_name : String
  region : String
deriving DecidableEq

/-- S3 API calls issued by the client. -/
inductive ApiCall
  | headBucket (bucket : String)
  | createBucket (bucket : String)
  | putBucketEncryption (bucket : String)
  | listBuckets
  | uploadObject (path bucket key storage sse : String)
      (metadata : Option (List (String × String)))
deriving DecidableEq

/-- The remote S3 world as the client can observe it: buckets that exist and
are accessible to the caller, buckets that exist but belong to someone else
(`head_bucket` → 403, `create_bucket` → `BucketAlreadyExists`), and injected
failures of the two creation-path calls. -/
structure S3World where
  accessible : List String
  foreign : List String
  /-- `create_bucket` raises some other `ClientError`. -/
  createRaisesOther : Bool
  /-- `put_bucket_encryption` raises. -/
  putEncryptionFails : Bool
deriving DecidableEq

/-- Result of `ensure_bucket_exists`: its boolean, the world afterwards, and
the API calls issued. -/
structure EnsureResult where
  result : Bool
  world : S3World
  calls : List ApiCall
deriving DecidableEq

/-- `_create_bucket_with_encryption` (aws_client.py lines 188–245):
`create_bucket` (with a `LocationConstraint` outside `us-east-1`), treating
`BucketAlreadyOwnedByYou` as success (lines 233–235) and `BucketAlreadyExists`
as a distinct failure (lines 236–238); on creation success,
`put_bucket_encryption` with SSE-S3, any raise being caught by the trailing
`except` (lines 243–245) after the bucket was already created. -/
def create_bucket_with_encryption (c : ClientState) (w : S3World) : EnsureResult :=
  if w.foreign.contains c.bucket_name then
    { result := false, world := w, calls := [.createBucket c.bucket_name] }
  else if w.accessible.contains c.bucket_name then
    { result := true, world := w, calls := [.createBucket c.bucket_name] }
  else if w.createRaisesOther then
    { result := false, world := w, calls := [.createBucket c.bucket_name] }
  else
    let w1 := { w with accessible := c.bucket_name :: w.accessible }
    if w.putEncryptionFails then
      { result := false, world := w1,
        calls := [.createBucket c.bucket_name,
                  .putBucketEncryption c.bucket_name] }
    else
      { result := true, world := w1,
        calls := [.createBucket c.bucket_name,
                  .putBucketEncryption c.bucket_name] }

/-- `ensure_bucket_exists` (aws_client.py lines 145–186): `False` without any
call when the client is uninitialised (lines 153–155); `head_bucket` success →
`True` with no further call (lines 159–161); 404/`NoSuchBucket` → create
(lines 166–169); 403/`AccessDenied`/`Forbidden` → `False` with no creation
attempt (lines 171–173); every raise is caught and yields `False`. -/
def ensure_bucket_exists (c : ClientState) (w : S3World) : EnsureResult :=
  if c.s3_client = false then
    { result := false, world := w, calls := [] }
  else if w.accessible.contains c.bucket_name then
    { result := true, world := w, calls := [.headBucket c.bucket_name] }
  else if w.foreign.contains c.bucket_name then
    { result := false, world := w, calls := [.headBucket c.bucket_name] }
  else
    let r := create_bucket_with_encryption c w
    { r with calls := .headBucket c.bucket_name :: r.calls }

/-- Whether an API call is a bucket-creation call. -/
def isCreateCall : ApiCall → Bool
  | .createBucket _ => true
  | _ => false

/-- `verify_credentials` (aws_client.py lines 97–143): `False` without any
call when the client is uninitialised (lines 105–107); otherwise one
`list_buckets` call, `True` iff the response carries a `Buckets` key, every
raise (`ClientError`, `BotoCoreError`, anything else) caught → `False`.
`listOutcome`: `.ok b` is a response where `b` says whether a `Buckets` key is in
the response; `.error ()` is a raised exception. -/
def verify_credentials (c : ClientState) (listOutcome : Except Unit Bool) :
    Bool × List ApiCall :=
  if c.s3_client = false then (false, [])
  else
    match listOutcome with
    | .ok hasBucketsKey => (hasBucketsKey, [.listBuckets])
    | .error _ => (false, [.listBuckets])

/-- Python truthiness of the optional `metadata` dict (aws_client.py line
275): `None` and the empty dict are both falsy, so no `Metadata` entry is
added to `ExtraArgs` for them. -/
def attachedMetadata : Option (List (String × String)) →
    Option (List (String × String))
  | none => none
  | some m => if m.isEmpty then none else some m

/-- `upload_file` (aws_client.py lines 247–297): `False` without any call when
the client is uninitialised (lines 259–261) or the local path does not exist
(lines 263–265); otherwise a single `upload_file` request with
storage class `DEEP_ARCHIVE`, server-side encryption `AES256` and the truthy
metadata attached; `providerOk` is whether that single request succeeds
(`ClientError` or any other raise → `False`, lines 289–297); no retry. -/
def upload_file (c : ClientState) (fs : List String) (providerOk : Bool)
    (local_path s3_key : String) (metadata : Option (List (String × String))) :
    Bool × List ApiCall :=
  if c.s3_client = false then (false, [])
  else if fs.contains local_path = false then (false, [])
  else
    (providerOk,
     [.uploadObject local_path c.bucket_name s3_key "DEEP_ARCHIVE" "AES256"
        (attachedMetadata metadata)])

/-- `generate_backup_key` (aws_client.py lines 299–315): `ValueError` for an
empty timestamp, else `f"{self.backup_prefix}-{timestamp}.zip"`. -/
def generate_backup_key (timestamp : String) : Except String String :=
  if timestamp = "" then .error "Timestamp must be a non-empty string"
  else .ok (backupPrefixValue ++ "-" ++ timestamp ++ ".zip")

/-- Python `min(a, b)` on two numbers: `a` if `a <= b` else `b`. -/
def pymin (a b : ℚ) : ℚ := if a ≤ b then a else b

/-- `calculate_upload_progress` (aws_client.py lines 443–469), with the Python
float arithmetic modelled by exact rationals (all outputs the claims name —
`0.0`, `50.0`, `100.0` — are exactly representable, and the computation
involves a single division and multiplication): `ValueError` on a negative
argument (uploaded checked first), `0.0` for `total == 0`, else
`min(uploaded/total*100, 100.0)`. -/
def calculate_upload_progress (uploaded total : Int) : Except String ℚ :=
  if uploaded < 0 then .error "Uploaded bytes cannot be negative"
  else if total < 0 then .error "Total bytes cannot be negative"
  else if total = 0 then .ok 0
  else .ok (pymin ((uploaded : ℚ) / (total : ℚ) * 100) 100)

/-! ### Theorems -/

/-- C4 counterexample: the claimed equality between `is_backup_target` and the
four-rule reference definition with the *directory segment* reading of rule 1
fails at the concrete path `my.obsidian.md` — a plain markdown file whose name
merely contains the substring `.obsidian`: the code excludes it, while the
reference definition of the claim includes it. -/
theorem is_backup_target_segment_counterexample :
    is_backup_target "my.obsidian.md" = false ∧
    isBackupTargetSegmentSpec "my.obsidian.md" = true := by
  decide

/-- C4 (amended): `is_backup_target` is a pure total boolean predicate and
equals, on every path, the reference definition given by the four ordered
exclusion rules with rule 1 amended to fire whenever the path contains the
substring `.obsidian` anywhere in the path string (rather than a directory
segment equal to `.obsidian`); the artifact-set, temporary-extension and
leading-dot rules are as the claim states them. -/
theorem is_backup_target_eq_substring_spec (p : String) :
    is_backup_target p = isBackupTargetSubstringSpec p := by
  cases h1 : strContains p ".obsidian" <;>
    cases h2 : excludedFiles.contains (basename p) <;>
      cases h3 : tempExtensions.any (fun ext => strEndsWith (basename p) ext) <;>
        cases h4 : strStartsWith (basename p) "." <;>
          simp [is_backup_target, isBackupTargetSubstringSpec, exclusionOrder,
            ruleExcludesSubstring, h1, h2, h3, h4]

/-- C6: `generate_backup_key` fails with the input-validation `ValueError`
exactly on the empty timestamp, and otherwise deterministically returns
`obsidian-backup-<timestamp>.zip`; in particular it maps
`2024-01-01-12-30-45` to `obsidian-backup-2024-01-01-12-30-45.zip`. -/
theorem generate_backup_key_spec (ts : String) :
    (ts = "" → generate_backup_key ts =
      .error "Timestamp must be a non-empty string")
  ∧ (ts ≠ "" → generate_backup_key ts =
      .ok ("obsidian-backup-" ++ ts ++ ".zip"))
  ∧ generate_backup_key "2024-01-01-12-30-45" =
      .ok "obsidian-backup-2024-01-01-12-30-45.zip" := by
  refine ⟨fun h => ?_, fun h => ?_, rfl⟩
  · simp [generate_backup_key, h]
  · have hpre : backupPrefixValue ++ "-" = "obsidian-backup-" := rfl
    simp only [generate_backup_key, if_neg h]
    rw [hpre]

/-- C6 witness: the two branches of `generate_backup_key_spec` at concrete
timestamps. -/
theorem generate_backup_key_spec_witness :
    generate_backup_key "" = .error "Timestamp must be a non-empty string"
  ∧ generate_backup_key "2024-01-01-12-30-45" =
      .ok ("obsidian-backup-" ++ "2024-01-01-12-30-45" ++ ".zip") :=
  ⟨(generate_backup_key_spec "").1 rfl,
   (generate_backup_key_spec "2024-01-01-12-30-45").2.1 (by decide)⟩

/-- Helper: the Python two-argument `min` never exceeds its second argument. -/
lemma pymin_le_right (a b : ℚ) : pymin a b ≤ b := by
  unfold pymin
  split
  · assumption
  · exact le_refl b

/-- C9: `calculate_upload_progress` raises the input-validation `ValueError`
on a negative uploaded count or a negative total, returns `0.0` when the total
is zero, returns exactly `100.0` when `u > t > 0`, never returns a value above
`100.0`, and maps `(500, 1000)` to `50.0`. -/
theorem calculate_upload_progress_spec (u t : Int) :
    (u < 0 → calculate_upload_progress u t =
      .error "Uploaded bytes cannot be negative")
  ∧ (0 ≤ u → t < 0 → calculate_upload_progress u t =
      .error "Total bytes cannot be negative")
  ∧ (0 ≤ u → calculate_upload_progress u 0 = .ok 0)
  ∧ (0 < t → t < u → calculate_upload_progress u t = .ok 100)
  ∧ (∀ q : ℚ, calculate_upload_progress u t = .ok q → q ≤ 100)
  ∧ calculate_upload_progress 500 1000 = .ok 50 := by
  refine ⟨fun h => ?_, fun h1 h2 => ?_, fun h => ?_, fun h1 h2 => ?_,
    fun q hq => ?_, ?_⟩
  · simp [calculate_upload_progress, h]
  · simp [calculate_upload_progress, not_lt.mpr h1, h2, asymm h2]
  · simp [calculate_upload_progress, not_lt.mpr h]
  · have hu : ¬ u < 0 := by omega
    have ht : ¬ t < 0 := by omega
    have ht0 : ¬ t = 0 := by omega
    have htq : (0 : ℚ) < (t : ℚ) := by exact_mod_cast h1
    have hd : (1 : ℚ) < (u : ℚ) / (t : ℚ) :=
      (one_lt_div htq).mpr (by exact_mod_cast h2)
    have h100 : (100 : ℚ) < (u : ℚ) / (t : ℚ) * 100 := by nlinarith
    simp only [calculate_upload_progress, if_neg hu, if_neg ht, if_neg ht0]
    rw [pymin, if_neg (not_le.mpr h100)]
  · simp only [calculate_upload_progress] at hq
    split at hq
    · exact Except.noConfusion hq
    · split at hq
      · exact Except.noConfusion hq
      · split at hq
        · injection hq with h
          rw [← h]
          norm_num
        · injection hq with h
          rw [← h]
          exact pymin_le_right _ _
  · simp only [calculate_upload_progress]
    norm_num [pymin]

/-- C9 witness: `calculate_upload_progress_spec` instantiated at concrete
inputs exercising the negative-input error, the zero total, and the cap. -/
theorem calculate_upload_progress_spec_witness :
    calculate_upload_progress (-1) 7 =
      .error "Uploaded bytes cannot be negative"
  ∧ calculate_upload_progress 3 0 = .ok 0
  ∧ calculate_upload_progress 150 100 = .ok 100 :=
  ⟨(calculate_upload_progress_spec (-1) 7).1 (by decide),
   (calculate_upload_progress_spec 3 0).2.2.1 (by decide),
   (calculate_upload_progress_spec 150 100).2.2.2.1 (by decide) (by decide)⟩

/-- C5: on an initialised client whose bucket already exists and is
accessible, `ensure_bucket_exists` is idempotent: both consecutive invocations
return true, the first leaves the remote world unchanged (no side effect), and
the second issues zero bucket-creation calls and also leaves the world
unchanged. -/
theorem ensure_bucket_exists_idempotent (c : ClientState) (w : S3World)
    (hc : c.s3_client = true)
    (hb : w.accessible.contains c.bucket_name = true) :
    (ensure_bucket_exists c w).result = true
  ∧ (ensure_bucket_exists c w).world = w
  ∧ (ensure_bucket_exists c (ensure_bucket_exists c w).world).result = true
  ∧ (ensure_bucket_exists c (ensure_bucket_exists c w).world).calls.filter
      isCreateCall = []
  ∧ (ensure_bucket_exists c (ensure_bucket_exists c w).world).world = w := by
  have hb' : c.bucket_name ∈ w.accessible := by simpa using hb
  have h1 : ensure_bucket_exists c w =
      { result := true, world := w, calls := [.headBucket c.bucket_name] } := by
    simp [ensure_bucket_exists, hc, hb']
  refine ⟨by rw [h1], by rw [h1], ?_, ?_, ?_⟩ <;>
    rw [h1] <;> simp [ensure_bucket_exists, hc, hb', isCreateCall]

/-- C5 witness: `ensure_bucket_exists_idempotent` at a concrete initialised
client and a world already containing its bucket. -/
theorem ensure_bucket_exists_idempotent_witness :
    (ensure_bucket_exists ⟨true, "vault-bkt", "us-east-1"⟩
        ⟨["vault-bkt"], [], false, false⟩).result = true
  ∧ (ensure_bucket_exists ⟨true, "vault-bkt", "us-east-1"⟩
        ⟨["vault-bkt"], [], false, false⟩).world =
      ⟨["vault-bkt"], [], false, false⟩
  ∧ (ensure_bucket_exists ⟨true, "vault-bkt", "us-east-1"⟩
        (ensure_bucket_exists ⟨true, "vault-bkt", "us-east-1"⟩
          ⟨["vault-bkt"], [], false, false⟩).world).result = true
  ∧ (ensure_bucket_exists ⟨true, "vault-bkt", "us-east-1"⟩
        (ensure_bucket_exists ⟨true, "vault-bkt", "us-east-1"⟩
          ⟨["vault-bkt"], [], false, false⟩).world).calls.filter
      isCreateCall = []
  ∧ (ensure_bucket_exists ⟨true, "vault-bkt", "us-east-1"⟩
        (ensure_bucket_exists ⟨true, "vault-bkt", "us-east-1"⟩
          ⟨["vault-bkt"], [], false, false⟩).world).world =
      ⟨["vault-bkt"], [], false, false⟩ :=
  ensure_bucket_exists_idempotent ⟨true, "vault-bkt", "us-east-1"⟩
    ⟨["vault-bkt"], [], false, false⟩ rfl (by decide)

/-- C7: `upload_file` returns false and issues no request whenever the local
path does not exist on disk (whatever the client state); and on an initialised
client with an existing local path it issues exactly one upload request —
storage class `DEEP_ARCHIVE`, server-side encryption `AES256`, the truthy
metadata attached — returning the outcome of that single attempt (true on
success, false on any provider-side or I/O error), with no retry. -/
theorem upload_file_spec (c : ClientState) (fs : List String)
    (providerOk : Bool) (lp k : String)
    (md : Option (List (String × String))) :
    (fs.contains lp = false → upload_file c fs providerOk lp k md = (false, []))
  ∧ (c.s3_client = true → fs.contains lp = true →
      upload_file c fs providerOk lp k md =
        (providerOk,
         [.uploadObject lp c.bucket_name k "DEEP_ARCHIVE" "AES256"
            (attachedMetadata md)])) := by
  constructor
  · intro h
    have h' : lp ∉ fs := by simpa using h
    by_cases hc : c.s3_client = false
    · simp [upload_file, hc]
    · simp [upload_file, hc, h']
  · intro hc h
    have h' : lp ∈ fs := by simpa using h
    simp [upload_file, hc, h']

/-- C7 witness: `upload_file_spec` at concrete inputs — a missing local path
gives false with no request; an existing path gives a single fully-specified
request whose outcome is the result. -/
theorem upload_file_spec_witness :
    upload_file ⟨true, "vault-bkt", "us-east-1"⟩ [] true "/tmp/a.zip" "k" none =
      (false, [])
  ∧ upload_file ⟨true, "vault-bkt", "us-east-1"⟩ ["/tmp/a.zip"] true
      "/tmp/a.zip" "k" (some [("backup_type", "full")]) =
      (true,
       [.uploadObject "/tmp/a.zip" "vault-bkt" "k" "DEEP_ARCHIVE" "AES256"
          (some [("backup_type", "full")])]) :=
  ⟨(upload_file_spec ⟨true, "vault-bkt", "us-east-1"⟩ [] true "/tmp/a.zip" "k"
      none).1 (by decide),
   (upload_file_spec ⟨true, "vault-bkt", "us-east-1"⟩ ["/tmp/a.zip"] true
      "/tmp/a.zip" "k" (some [("backup_type", "full")])).2 rfl (by decide)⟩

/-- C10: on a client whose inner `s3_client` is unset, each of
`verify_credentials`, `ensure_bucket_exists` and `upload_file` returns false
with an empty call trace — no remote call is issued, the world is untouched,
and (being total boolean functions, every raise in the source being caught)
nothing is raised. -/
theorem uninitialized_client_noop (c : ClientState) (lo : Except Unit Bool)
    (w : S3World) (fs : List String) (providerOk : Bool) (lp k : String)
    (md : Option (List (String × String))) (h : c.s3_client = false) :
    verify_credentials c lo = (false, [])
  ∧ ensure_bucket_exists c w = { result := false, world := w, calls := [] }
  ∧ upload_file c fs providerOk lp k md = (false, []) := by
  refine ⟨?_, ?_, ?_⟩ <;>
    simp [verify_credentials, ensure_bucket_exists, upload_file, h]

/-- C10 witness: `uninitialized_client_noop` at a concrete uninitialised
client. -/
theorem uninitialized_client_noop_witness :
    verify_credentials ⟨false, "vault-bkt", "us-east-1"⟩ (.ok true) =
      (false, [])
  ∧ ensure_bucket_exists ⟨false, "vault-bkt", "us-east-1"⟩ ⟨[], [], false, false⟩ =
      { result := false, world := ⟨[], [], false, false⟩, calls := [] }
  ∧ upload_file ⟨false, "vault-bkt", "us-east-1"⟩ ["/tmp/a.zip"] true
      "/tmp/a.zip" "k" none = (false, []) :=
  uninitialized_client_noop ⟨false, "vault-bkt", "us-east-1"⟩ (.ok true)
    ⟨[], [], false, false⟩ ["/tmp/a.zip"] true "/tmp/a.zip" "k" none rfl

/-- Concrete call environment for the shipped backup.py module: one existing
file on disk, the names `tempfile` and `zipfile` unresolved, and no injected
I/O failure. -/
def shippedArchiveEnv : ArchiveEnv :=
  { fs := ["/vault/existing.md"], tempName := "/tmp/backup.zip",
    tempfileDefined := false, zipfileDefined := false,
    openFails := false, writeFails := fun _ => false, closeFails := false }

/-- The same call environment with the two names resolving, i.e. the module
as its own tests and the spec intend it (with `import tempfile, zipfile`). -/
def importFixedArchiveEnv : ArchiveEnv :=
  { shippedArchiveEnv with tempfileDefined := true, zipfileDefined := true }

/-- C1: in the shipped module `create_backup_archive` cannot return an
archive for any input — `tempfile` and `zipfile` are never imported, so line
122 raises `NameError`, which the blanket `except` converts to `None`: built
from `[existing.md, missing.md]` with only `existing.md` on disk it returns
`None` without even recording the missing-file warning.  With the two imports
in place, the very same call behaves exactly as the claim states: it returns
the archive location, stores only `existing.md` under its vault-relative name,
and records the warning for `missing.md`. -/
theorem create_backup_archive_import_bug :
    ShippedModule shippedArchiveEnv
  ∧ create_backup_archive shippedArchiveEnv "/vault"
      ["/vault/existing.md", "/vault/missing.md"] =
      { result := none, fs := ["/vault/existing.md"], warnings := [],
        entries := [] }
  ∧ create_backup_archive importFixedArchiveEnv "/vault"
      ["/vault/existing.md", "/vault/missing.md"] =
      { result := some "/tmp/backup.zip",
        fs := ["/tmp/backup.zip", "/vault/existing.md"],
        warnings := ["/vault/missing.md"],
        entries := ["existing.md"] } := by
  refine ⟨⟨rfl, rfl⟩, ?_, ?_⟩ <;> decide

/-- Call environment reaching the archive-writing code (names resolving, one
file on disk) in which finalising the container raises an I/O error. -/
def closeFailArchiveEnv : ArchiveEnv :=
  { fs := ["/vault/note.md"], tempName := "/tmp/partial.zip",
    tempfileDefined := true, zipfileDefined := true,
    openFails := false, writeFails := fun _ => false, closeFails := true }

/-- C2 counterexample: when an I/O failure is raised while the archive
container is being finalised, the operation does abort with `None`, but the
partially written container `/tmp/partial.zip` is still on disk afterwards —
the `except` handler of lines 153–155 does not delete it, refuting the claim
that no partial archive file remains. -/
theorem create_backup_archive_partial_remains_counterexample :
    (create_backup_archive closeFailArchiveEnv "/vault"
      ["/vault/note.md"]).result = none
  ∧ (create_backup_archive closeFailArchiveEnv "/vault"
      ["/vault/note.md"]).fs.contains "/tmp/partial.zip" = true := by
  decide

/-- C2 (amended): whenever an unexpected I/O failure occurs while
`create_backup_archive` is writing the archive — opening the container raises,
or finalising it raises after at least one entry was stored — the whole
operation aborts returning `None`, but the partially written container is
*not* deleted: it remains on disk (the builder only deletes the container in
the nothing-was-archived case). -/
theorem create_backup_archive_partial_remains (env : ArchiveEnv) (vp : String)
    (files : List String)
    (h1 : env.tempfileDefined = true) (h2 : env.zipfileDefined = true)
    (hne : files.isEmpty = false)
    (hfail : env.openFails = true ∨
      (env.closeFails = true ∧
        (archiveLoop (env.tempName :: env.fs) env.writeFails vp files).1 ≠ [])) :
    (create_backup_archive env vp files).result = none
  ∧ (create_backup_archive env vp files).fs.contains env.tempName = true := by
  simp only [create_backup_archive, hne, h1, h2, Bool.true_eq_false,
    if_false]
  by_cases hopen : env.openFails = true
  · simp [create_backup_archive_zip, hopen]
  · rcases hfail with hfail | ⟨hclose, hent⟩
    · exact absurd hfail hopen
    · have hent' : (archiveLoop (env.tempName :: env.fs) env.writeFails vp
          files).1.isEmpty = false := by
        cases h : (archiveLoop (env.tempName :: env.fs) env.writeFails vp
            files).1 with
        | nil => exact absurd h hent
        | cons a l => simp [h]
      simp [create_backup_archive_zip, hopen, hent', hclose]

/-- Call environment in which opening the archive container raises. -/
def openFailArchiveEnv : ArchiveEnv :=
  { fs := ["/vault/note.md"], tempName := "/tmp/partial2.zip",
    tempfileDefined := true, zipfileDefined := true,
    openFails := true, writeFails := fun _ => false, closeFails := false }

/-- C2 witness: `create_backup_archive_partial_remains` at a concrete
environment where opening the container raises. -/
theorem create_backup_archive_partial_remains_witness :
    (create_backup_archive openFailArchiveEnv "/vault"
      ["/vault/note.md"]).result = none
  ∧ (create_backup_archive openFailArchiveEnv "/vault"
      ["/vault/note.md"]).fs.contains "/tmp/partial2.zip" = true :=
  create_backup_archive_partial_remains openFailArchiveEnv "/vault"
    ["/vault/note.md"] rfl rfl rfl (Or.inl rfl)

/-- Helper: a `create_backup_archive` call either fails (`None`) or returns
exactly the allocated temporary name with the container left on disk and the
loop results as warnings and entries. -/
lemma create_backup_archive_cases (env : ArchiveEnv) (vp : String)
    (files : List String) :
    (create_backup_archive env vp files).result = none ∨
    create_backup_archive env vp files =
      { result := some env.tempName, fs := env.tempName :: env.fs,
        warnings :=
          (archiveLoop (env.tempName :: env.fs) env.writeFails vp files).2,
        entries :=
          (archiveLoop (env.tempName :: env.fs) env.writeFails vp files).1 } := by
  simp only [create_backup_archive, create_backup_archive_zip]
  repeat' split
  all_goals first
    | exact Or.inl rfl
    | exact Or.inr rfl

/-- C3: in a run that reached step 3 and built its archive (validation
passed, the scan was non-empty, and `create_backup_archive` returned the
archive path `p`), `execute_backup` deletes the temporary archive file exactly
once, whatever the outcomes of the ensure-bucket, key-generation and upload
calls (raise, `False`, or success): the event trace contains precisely one
deletion, of `p`, and the file is gone from disk when the run ends. -/
theorem execute_backup_cleanup_once (vp : String) (vault : List WalkEntry)
    (env : ArchiveEnv) (aws : AwsOracle) (p : String)
    (hv : validate_vault vault = true)
    (hscan : (scan_vault_files vault).isEmpty = false)
    (hcreate :
      (create_backup_archive env vp (scan_vault_files vault)).result = some p) :
    (execute_backup vp vault env aws).calls.filter isUnlink = [.unlinkCall p]
  ∧ (execute_backup vp vault env aws).fs = env.fs := by
  rcases create_backup_archive_cases env vp (scan_vault_files vault) with hn | he
  · rw [hn] at hcreate
    exact absurd hcreate (by simp)
  · have hp : p = env.tempName := by
      rw [he] at hcreate
      simpa using hcreate.symm
    subst hp
    simp only [execute_backup, hv, hscan, he, Bool.true_eq_false, if_false,
      Bool.false_eq_true]
    cases h1 : aws.ensureBucket with
    | error e => simp [armedCleanup, isUnlink]
    | ok b =>
      cases b with
      | false => simp [armedCleanup, isUnlink]
      | true =>
        cases h2 : aws.genKey with
        | error e => simp [armedCleanup, isUnlink]
        | ok s3_key =>
          cases h3 : aws.upload with
          | error e => simp [armedCleanup, isUnlink]
          | ok bu => cases bu <;> simp [armedCleanup, isUnlink]

/-- Vault walk for the C3 witness: a single eligible markdown note. -/
def cleanupWitnessVault : List WalkEntry := [⟨"/v", "note.md"⟩]

/-- Archive environment for the C3 witness: the note exists on disk, the
imports resolve, and no I/O failure is injected. -/
def cleanupWitnessEnv : ArchiveEnv :=
  { fs := ["/v/note.md"], tempName := "/tmp/run.zip",
    tempfileDefined := true, zipfileDefined := true,
    openFails := false, writeFails := fun _ => false, closeFails := false }

/-- AWS oracle for the C3 witness: every remote call succeeds. -/
def cleanupWitnessAws : AwsOracle :=
  { ensureBucket := .ok true,
    genKey := .ok "obsidian-backup-2024-01-01-12-30-45.zip",
    upload := .ok true }

/-- C3 witness: `execute_backup_cleanup_once` on a concrete successful run. -/
theorem execute_backup_cleanup_once_witness :
    (execute_backup "/v" cleanupWitnessVault cleanupWitnessEnv
        cleanupWitnessAws).calls.filter isUnlink = [.unlinkCall "/tmp/run.zip"]
  ∧ (execute_backup "/v" cleanupWitnessVault cleanupWitnessEnv
        cleanupWitnessAws).fs = ["/v/note.md"] :=
  execute_backup_cleanup_once "/v" cleanupWitnessVault cleanupWitnessEnv
    cleanupWitnessAws "/tmp/run.zip" (by decide) (by decide) (by decide)

/-- Helper: a walk containing no eligible file leaves both validation flags
false. -/
lemma validate_walk_no_eligible (vault : List WalkEntry)
    (h : ∀ e ∈ vault, is_backup_target (osPathJoin e.root e.file) = false) :
    validate_walk false false vault = (false, false) := by
  induction vault with
  | nil => rfl
  | cons e es ih =>
    have he := h e (List.mem_cons_self e es)
    simp only [validate_walk, he, Bool.false_eq_true, if_false]
    exact ih (fun x hx => h x (List.mem_cons_of_mem e hx))

/-- C8: for a vault whose walk contains no eligible file, `validate_vault`
returns false with the distinguishable "empty" reason, and the backup run
aborts at the validation step: the run returns false with an empty event
trace, so no remote-storage operation (bucket check, key generation, or
upload) is ever invoked and the on-disk state is untouched. -/
theorem empty_vault_aborts_before_remote (vp : String)
    (vault : List WalkEntry) (env : ArchiveEnv) (aws : AwsOracle)
    (h : ∀ e ∈ vault, is_backup_target (osPathJoin e.root e.file) = false) :
    validate_vault vault = false
  ∧ validate_vault_reason vault = .empty
  ∧ (execute_backup vp vault env aws).ok = false
  ∧ (execute_backup vp vault env aws).calls = []
  ∧ (execute_backup vp vault env aws).fs = env.fs := by
  have hw := validate_walk_no_eligible vault h
  have hr : validate_vault_reason vault = .empty := by
    simp [validate_vault_reason, hw]
  have hv : validate_vault vault = false := by
    simp [validate_vault, hr]
  refine ⟨hv, hr, ?_, ?_, ?_⟩ <;> simp [execute_backup, hv]

/-- Archive environment for the C8 witness. -/
def emptyVaultWitnessEnv : ArchiveEnv :=
  { fs := [], tempName := "/tmp/none.zip",
    tempfileDefined := true, zipfileDefined := true,
    openFails := false, writeFails := fun _ => false, closeFails := false }

/-- AWS oracle for the C8 witness. -/
def emptyVaultWitnessAws : AwsOracle :=
  { ensureBucket := .ok true, genKey := .ok "k.zip", upload := .ok true }

/-- C8 witness: `empty_vault_aborts_before_remote` on the concrete empty
walk. -/
theorem empty_vault_aborts_before_remote_witness :
    validate_vault [] = false
  ∧ validate_vault_reason [] = .empty
  ∧ (execute_backup "/v" [] emptyVaultWitnessEnv emptyVaultWitnessAws).ok =
      false
  ∧ (execute_backup "/v" [] emptyVaultWitnessEnv emptyVaultWitnessAws).calls =
      []
  ∧ (execute_backup "/v" [] emptyVaultWitnessEnv emptyVaultWitnessAws).fs =
      [] :=
  empty_vault_aborts_before_remote "/v" [] emptyVaultWitnessEnv
    emptyVaultWitnessAws (by simp)

end ObsidianS3Backup
